import Mathlib

/-!
# Verification of the roster reconciliation engine of botc-bot.py

This file gives a shallow embedding of the signup-roster logic of the
Discord bot in `src/botc-bot.py` and proves properties of it.
Modelling conventions:
* Emoji strings become the inductive `Emoji`; the Python emoji lists
  (`MAIN_GUEST_EMOJIS`, `ALL_MAIN_EMOJIS`, ...) become Lean lists.
* The `game_data["players"]` list of dicts becomes `Store := List Player`.
* The reaction handlers `on_reaction_add` / `on_raw_reaction_remove` become
  pure functions from the store (plus the signal data) to a result record
  that carries the new store together with the observable side effects:
  whether the just-added reaction was retracted (`safe_remove_reaction` on
  the triggering emoji), which other reactions of the user were retracted
  (`remove_user_reactions_from_group`), which DM notification was sent,
  whether `save_game_data` ran, and whether the summary embed was edited.
* The remove handler's re-scan of the message's remaining reactions is an
  input (`RemovalScan`), matching the collaborator-query reading of the
  scan loops in the source.
-/

namespace BotcBot

/-- The reaction emojis of the bot.  `shield` is `MAIN_PLAYER_EMOJI`,
`dagger`/`swords`/`bow`/`lightning` are `MAIN_GUEST_EMOJIS`, `luggage` is
`TRAVELER_EMOJI`, `car`/`plane`/`train`/`ship` are `TRAVELER_GUEST_EMOJIS`,
`clock` is `STORYTELLER_EMOJI`, `surfer` is `HANGOUT_EMOJI`, `seal` is
`SEAL_EMOJI`, and `stray` stands for any emoji the bot does not recognise. -/
inductive Emoji
  | shield | dagger | swords | bow | lightning
  | luggage | car | plane | train | ship
  | clock | surfer | seal | stray
deriving DecidableEq, Repr

/-- Source list `MAIN_GUEST_EMOJIS` (dagger, swords, bow, lightning). -/
def MAIN_GUEST_EMOJIS : List Emoji := [.dagger, .swords, .bow, .lightning]

/-- Source list `TRAVELER_GUEST_EMOJIS` (car, plane, train, ship). -/
def TRAVELER_GUEST_EMOJIS : List Emoji := [.car, .plane, .train, .ship]

/-- Source list `ALL_MAIN_EMOJIS`: the solo shield plus the guest emojis. -/
def ALL_MAIN_EMOJIS : List Emoji := .shield :: MAIN_GUEST_EMOJIS

/-- Source list `ALL_TRAVELER_EMOJIS`: the solo luggage plus the guest emojis. -/
def ALL_TRAVELER_EMOJIS : List Emoji := .luggage :: TRAVELER_GUEST_EMOJIS

/-- Capacity `MAX_MAIN_PLAYERS = 15`. -/
def MAX_MAIN_PLAYERS : Nat := 15

/-- Capacity `MAX_TRAVELERS = 5`. -/
def MAX_TRAVELERS : Nat := 5

/-- Capacity `MAX_STORYTELLERS = 1`. -/
def MAX_STORYTELLERS : Nat := 1

/-- The `group_type` argument of `get_guest_count_from_emoji`. -/
inductive GroupType
  | main | traveler
deriving DecidableEq, Repr

/-- Python's `list.index`, returning `none` instead of raising `ValueError`. -/
def indexOfEmoji : List Emoji → Emoji → Option Nat
  | [], _ => none
  | e :: rest, t => if e = t then some 0 else (indexOfEmoji rest t).map (· + 1)

/-- Source `get_guest_count_from_emoji(emoji, group_type)`: the occupancy weight of a
reaction emoji (reactor plus guests); `0` for an emoji that is not in the
group's list (the Python code catches `ValueError` and returns `0`). -/
def get_guest_count_from_emoji (emoji : Emoji) (group : GroupType) : Nat :=
  match group with
  | .main =>
    if emoji = .shield then 1
    else
      match indexOfEmoji MAIN_GUEST_EMOJIS emoji with
      | some i => i + 2
      | none => 0
  | .traveler =>
    if emoji = .luggage then 1
    else
      match indexOfEmoji TRAVELER_GUEST_EMOJIS emoji with
      | some i => i + 2
      | none => 0

/-- One entry of `game_data["players"]`. -/
structure Player where
  user_id : Nat
  main_count : Nat
  traveler_count : Nat
  storyteller : Bool
  hangout : Bool
deriving DecidableEq, Repr

/-- The fresh all-zero entry appended by `on_reaction_add` for an unknown user. -/
def fresh_player (uid : Nat) : Player :=
  ⟨uid, 0, 0, false, false⟩

/-- The in-memory roster store, `game_data["players"]`. -/
abbrev Store := List Player

/-- Source `get_total_main_count()`: sum of `main_count` over all entries. -/
def get_total_main_count (s : Store) : Nat :=
  (s.map Player.main_count).sum

/-- Source `get_total_traveler_count()`: sum of `traveler_count` over all entries. -/
def get_total_traveler_count (s : Store) : Nat :=
  (s.map Player.traveler_count).sum

/-- Source `get_total_storyteller_count()`: the sum of 1 over the entries whose
storyteller flag is set, written as a sum of indicator values. -/
def get_total_storyteller_count (s : Store) : Nat :=
  (s.map (fun p => if p.storyteller then 1 else 0)).sum

/-- Source `find_player(user_id)`: index of the first entry with the given id;
the Python function returns `-1` when absent, modelled as `none`. -/
def find_player : Store → Nat → Option Nat
  | [], _ => none
  | p :: rest, uid =>
    if p.user_id = uid then some 0 else (find_player rest uid).map (· + 1)

/-- The keep-condition of the "clean up empty players" filter: an entry is
kept when it has any activity. -/
def entry_active (p : Player) : Bool :=
  p.main_count != 0 || p.traveler_count != 0 || p.storyteller || p.hangout

/-- The "clean up empty players" list comprehension run at the end of both
reaction handlers. -/
def prune (s : Store) : Store :=
  s.filter entry_active

/-- The first entry with the given user id, if any (a derived accessor used
to state theorems; agrees with `find_player` by `lookup_player_eq_find`). -/
def lookup_player : Store → Nat → Option Player
  | [], _ => none
  | p :: rest, uid => if p.user_id = uid then some p else lookup_player rest uid

/-- The stored main-category weight of a user (`0` when the user has no entry). -/
def stored_main (s : Store) (uid : Nat) : Nat :=
  ((lookup_player s uid).getD (fresh_player uid)).main_count

/-- The stored traveler-category weight of a user (`0` when absent). -/
def stored_traveler (s : Store) (uid : Nat) : Nat :=
  ((lookup_player s uid).getD (fresh_player uid)).traveler_count

/-- The stored storyteller flag of a user (`false` when absent). -/
def stored_storyteller (s : Store) (uid : Nat) : Bool :=
  ((lookup_player s uid).getD (fresh_player uid)).storyteller

/-- Field update helpers mirroring the Python in-place dict assignments. -/
def set_main (p : Player) (w : Nat) : Player :=
  { p with main_count := w }

def set_traveler (p : Player) (w : Nat) : Player :=
  { p with traveler_count := w }

def set_story (p : Player) (b : Bool) : Player :=
  { p with storyteller := b }

def set_hang (p : Player) (b : Bool) : Player :=
  { p with hangout := b }

/-- The "find or create player entry" prologue of `on_reaction_add`: returns
the (possibly extended) store and the index of the user's entry. -/
def ensure_player (s : Store) (uid : Nat) : Store × Nat :=
  match find_player s uid with
  | some i => (s, i)
  | none => (s ++ [fresh_player uid], s.length)

/-- The DM notifications `on_reaction_add` can send.  `mainFull w a` /
`travelerFull w a` carry the requested weight and the computed
`available_spots` (a Python `int`, so modelled as `Int`). -/
inductive Notice
  | storytellerTaken
  | mainFull (requested : Nat) (available : Int)
  | travelerFull (requested : Nat) (available : Int)
  | sealKiss
deriving DecidableEq, Repr

/-- Result of one `on_reaction_add` call: the new store plus the observable
effects of the handler. -/
structure AddResult where
  players : Store
  retractedSelf : Bool
  retractedOthers : List Emoji
  notice : Option Notice
  saved : Bool
  republished : Bool
deriving DecidableEq, Repr

/-- The common tail of `on_reaction_add` (clean up empty players, edit the
embed); `sv` records whether the branch called `save_game_data`. -/
def finishAdd (s : Store) (sv : Bool) : AddResult :=
  ⟨prune s, false, [], none, sv, true⟩

/-- An early `return` from `on_reaction_add` that retracted the triggering
reaction and sent a DM: no save, no prune, no embed edit. -/
def abortAdd (s : Store) (n : Notice) : AddResult :=
  ⟨s, true, [], some n, false, false⟩

/-- Source handler `on_reaction_add` (the roster logic after the bot-user and message-id
guards): find or create the player entry, dispatch on the emoji, clean up
empty entries and re-render unless a branch returned early. -/
def on_reaction_add (s0 : Store) (uid : Nat) (emoji : Emoji) : AddResult :=
  let s := (ensure_player s0 uid).1
  let idx := (ensure_player s0 uid).2
  let player := s.getD idx (fresh_player uid)
  if emoji = .clock then
    if player.storyteller then
      finishAdd s true
    else if get_total_storyteller_count s < MAX_STORYTELLERS then
      finishAdd (s.set idx (set_story player true)) true
    else
      abortAdd s .storytellerTaken
  else if emoji = .surfer then
    finishAdd (s.set idx (set_hang player true)) true
  else if emoji ∈ ALL_MAIN_EMOJIS then
    if (get_total_main_count s : Int) - player.main_count
        + get_guest_count_from_emoji emoji GroupType.main ≤ MAX_MAIN_PLAYERS then
      { finishAdd (s.set idx (set_main player
            (get_guest_count_from_emoji emoji GroupType.main))) true with
        retractedOthers := ALL_MAIN_EMOJIS.filter (fun e => e ≠ emoji) }
    else
      abortAdd s (.mainFull (get_guest_count_from_emoji emoji GroupType.main)
        ((MAX_MAIN_PLAYERS : Int)
          - ((get_total_main_count s : Int) - player.main_count)))
  else if emoji = .seal then
    abortAdd s .sealKiss
  else if emoji ∈ ALL_TRAVELER_EMOJIS then
    if (get_total_traveler_count s : Int) - player.traveler_count
        + get_guest_count_from_emoji emoji GroupType.traveler ≤ MAX_TRAVELERS then
      { finishAdd (s.set idx (set_traveler player
            (get_guest_count_from_emoji emoji GroupType.traveler))) true with
        retractedOthers := ALL_TRAVELER_EMOJIS.filter (fun e => e ≠ emoji) }
    else
      abortAdd s (.travelerFull (get_guest_count_from_emoji emoji GroupType.traveler)
        ((MAX_TRAVELERS : Int)
          - ((get_total_traveler_count s : Int) - player.traveler_count)))
  else
    finishAdd s false

/-- The remaining-reaction state `on_raw_reaction_remove` reads back from the
message: the first main-group emoji the user still holds, the first
traveler-group emoji the user still holds, and whether the user still holds
the storyteller emoji. -/
structure RemovalScan where
  remainingMain : Option Emoji
  remainingTraveler : Option Emoji
  stillStoryteller : Bool
deriving DecidableEq, Repr

/-- Result of one `on_raw_reaction_remove` call. -/
structure RemoveResult where
  players : Store
  saved : Bool
  republished : Bool
deriving DecidableEq, Repr

/-- Source handler `on_raw_reaction_remove` (the roster logic after the guards): if the user
has no entry the handler returns at once; otherwise the branch for the emoji
updates the entry from the remaining-reaction scan, and the handler always
cleans up empty entries, saves, and re-renders. -/
def on_raw_reaction_remove (s : Store) (uid : Nat) (emoji : Emoji)
    (scan : RemovalScan) : RemoveResult :=
  match find_player s uid with
  | none => ⟨s, false, false⟩
  | some idx =>
    let player := s.getD idx (fresh_player uid)
    let s1 :=
      if emoji = .clock then
        if scan.stillStoryteller then s else s.set idx (set_story player false)
      else if emoji = .surfer then
        s.set idx (set_hang player false)
      else if emoji ∈ ALL_MAIN_EMOJIS then
        match scan.remainingMain with
        | some t => s.set idx (set_main player (get_guest_count_from_emoji t GroupType.main))
        | none => s.set idx (set_main player 0)
      else if emoji ∈ ALL_TRAVELER_EMOJIS then
        match scan.remainingTraveler with
        | some t =>
          s.set idx (set_traveler player (get_guest_count_from_emoji t GroupType.traveler))
        | none => s.set idx (set_traveler player 0)
      else s
    ⟨prune s1, true, true⟩

/-- An input signal of the reconciliation engine: a reaction added, or a
reaction removed together with the remaining-reaction scan the handler
performs while processing it. -/
inductive Signal
  | added (uid : Nat) (emoji : Emoji)
  | removed (uid : Nat) (emoji : Emoji) (scan : RemovalScan)
deriving DecidableEq, Repr

/-- The store after processing one signal. -/
def stepSignal (s : Store) : Signal → Store
  | .added uid e => (on_reaction_add s uid e).players
  | .removed uid e scan => (on_raw_reaction_remove s uid e scan).players

/-- The store after processing a sequence of signals in delivery order. -/
def runSignals (s : Store) (sigs : List Signal) : Store :=
  sigs.foldl stepSignal s

/-- The capacity invariant of §8 of the spec: every bounded category's total
is within its capacity. -/
abbrev capsOK (s : Store) : Prop :=
  get_total_main_count s ≤ MAX_MAIN_PLAYERS ∧
  get_total_traveler_count s ≤ MAX_TRAVELERS ∧
  get_total_storyteller_count s ≤ MAX_STORYTELLERS


/-- The side condition under which a selection-removed signal cannot raise a
total: the remaining-reaction weight the scan reports for the affected
category does not exceed the user's stored weight there.  This holds in
particular whenever the scan reports no remaining token, and whenever the
remaining token is the one whose weight is currently stored. -/
def scanBoundedB (s : Store) : Signal → Bool
  | .added _ _ => true
  | .removed uid e scan =>
      (if e ∈ ALL_MAIN_EMOJIS then
        match scan.remainingMain with
        | some t => decide (get_guest_count_from_emoji t GroupType.main ≤ stored_main s uid)
        | none => true
      else true)
      && (if e ∈ ALL_TRAVELER_EMOJIS then
        match scan.remainingTraveler with
        | some t =>
          decide (get_guest_count_from_emoji t GroupType.traveler ≤ stored_traveler s uid)
        | none => true
      else true)

/-- Predicate `scanBoundedB` holding at every step of a signal sequence. -/
def goodSignalsB : Store → List Signal → Bool
  | _, [] => true
  | s, sig :: rest => scanBoundedB s sig && goodSignalsB (stepSignal s sig) rest


/-- A sequence of five accepted weight-3 signups filling the main pool,
followed by a removal whose scan reports a remaining weight-5 reaction. -/
def capacity_breach_signals : List Signal :=
  [.added 1 .swords, .added 2 .swords, .added 3 .swords, .added 4 .swords,
   .added 5 .swords, .removed 1 .swords ⟨some .lightning, none, false⟩]

/-- A small well-behaved signal sequence: a signup and its removal with an
empty remaining-reaction scan. -/
def bounded_removal_signals : List Signal :=
  [.added 1 .shield, .removed 1 .shield ⟨none, none, false⟩]


/-- Scenario C of the spec: a user with stored weight 3 while the main pool
is at its capacity 15. -/
def scenario_c_store : Store :=
  [⟨1, 3, 0, false, false⟩, ⟨2, 5, 0, false, false⟩, ⟨3, 5, 0, false, false⟩,
   ⟨4, 2, 0, false, false⟩]

/-- The signal sequence of the C5 failing input: three accepted signups
bring the main total to 12, then a previously unknown user requests a
weight-5 token, which is rejected. -/
def rejected_unknown_user_signals : List Signal :=
  [.added 2 .lightning, .added 3 .lightning, .added 4 .dagger, .added 1 .lightning]

/-- A timezone-local civil time at minute granularity: `day` is an absolute
day index in the local calendar with day 0 a Monday (so `day % 7` is
Python's `datetime.weekday()`), and `minute` the minutes since local
midnight.  The source zeroes `second`/`microsecond`, so they are omitted. -/
structure LocalTime where
  day : Nat
  minute : Nat
deriving DecidableEq, Repr

/-- Python's `datetime.weekday()`: 0 = Monday, ..., 6 = Sunday. -/
def weekday (t : LocalTime) : Nat := t.day % 7

/-- Strict chronological order on local times. -/
abbrev timeBefore (a b : LocalTime) : Prop :=
  a.day < b.day ∨ (a.day = b.day ∧ a.minute < b.minute)

/-- Source `get_next_game_time(day_of_week, hour, minute)`: `days_ahead =
day_of_week - now.weekday()`, incremented by 7 whenever `days_ahead <= 0`,
then `now + timedelta(days=days_ahead)` with the time-of-day replaced by
`hour:minute`. -/
def get_next_game_time (day_of_week hour minute : Nat) (now : LocalTime) :
    LocalTime :=
  let days_ahead : Int := (day_of_week : Int) - (weekday now : Int)
  let d := if days_ahead ≤ 0 then days_ahead + 7 else days_ahead
  ⟨now.day + d.toNat, hour * 60 + minute⟩


/-- The full bot state `game_data` (roster entries plus bindings), as
persisted in `game_data.json`. -/
structure GameData where
  players : Store
  message_id : Option Nat
  channel_id : Option Nat
  event_id : Option Nat
  week_of : Option String
deriving DecidableEq, Repr

/-- The module-level default value of `game_data`: empty roster, no
bindings. -/
def default_game_data : GameData := ⟨[], none, none, none, none⟩

/-- The observable states of the persisted snapshot file. -/
inductive SnapshotFile
  | missing
  | malformed
  | wellFormed (d : GameData)
deriving DecidableEq, Repr

/-- The call `json.load` inside `load_game_data`: raises (here: `Except.error`) on a
malformed file. -/
def json_load : SnapshotFile → Except String GameData
  | .missing => .error "file not found"
  | .malformed => .error "invalid json"
  | .wellFormed d => .ok d

/-- Source `load_game_data()`: when `game_data.json` does not exist the body is
skipped; otherwise the file is parsed and `game_data.update(loaded_data)`
replaces the state with the loaded snapshot; the surrounding
`try/except` catches any parse exception and keeps the in-memory value.
The function is total, so no exception reaches the caller. -/
def load_game_data (current : GameData) (file : SnapshotFile) : GameData :=
  if file = .missing then current
  else
    match json_load file with
    | .ok d => d
    | .error _ => current

/-- Source `parse_hour_only(hour)`: an in-range bare hour between 6 and 11 is
assumed to be PM (hour + 12), any other in-range hour is used as-is, and an
out-of-range hour raises `ValueError` (here: `Except.error`).  The
`hour < 0` guard of the source cannot fire for a regex-parsed digit
string, so the argument is a `Nat`. -/
def parse_hour_only (hour : Nat) : Except String (Nat × Nat) :=
  if hour > 23 then .error "Hour must be between 0 and 23"
  else if 6 ≤ hour ∧ hour ≤ 11 then .ok (hour + 12, 0)
  else .ok (hour, 0)

/-- The bare-hour branch of `parse_time_input`: the pattern `(\d\x7b1,2\x7d)`
hands the parsed digits to `parse_hour_only`; a raised `ValueError` makes
the pattern loop continue, so the input is rejected (`none`), and a parsed
result is accepted only when `0 <= hour <= 23` and `0 <= minute <= 59`. -/
def parse_time_bare_hour (h : Nat) : Option (Nat × Nat) :=
  match parse_hour_only h with
  | .error _ => none
  | .ok (hr, mi) => if hr ≤ 23 ∧ mi ≤ 59 then some (hr, mi) else none

/-! ## Basic lemmas about sums, lookup and prune -/

theorem sum_map_set (f : Player → Nat) :
    ∀ (s : Store) (i : Nat) (p q : Player), i < s.length →
      ((s.set i p).map f).sum + f (s.getD i q) = (s.map f).sum + f p
  | [], i, _, _, h => absurd h (by simp)
  | a :: rest, 0, p, q, _ => by
      simp
      omega
  | a :: rest, i + 1, p, q, h => by
      have ih := sum_map_set f rest i p q (by simpa using h)
      show ((a :: rest.set i p).map f).sum + f (rest.getD i q) = _
      simp only [List.getD_cons_succ, List.map_cons, List.sum_cons]
      omega

theorem getD_le_sum (f : Player → Nat) :
    ∀ (s : Store) (i : Nat) (q : Player), i < s.length →
      f (s.getD i q) ≤ (s.map f).sum
  | [], i, _, h => absurd h (by simp)
  | a :: rest, 0, q, _ => by simp
  | a :: rest, i + 1, q, h => by
      have ih := getD_le_sum f rest i q (by simpa using h)
      simp only [List.getD_cons_succ, List.map_cons, List.sum_cons]
      omega

theorem sum_map_prune (f : Player → Nat)
    (hf : ∀ p, entry_active p = false → f p = 0) :
    ∀ s : Store, ((prune s).map f).sum = (s.map f).sum
  | [] => rfl
  | a :: rest => by
      have ih := sum_map_prune f hf rest
      by_cases ha : entry_active a
      · simp [prune, List.filter_cons, ha] at ih ⊢
        omega
      · have := hf a (by simpa using ha)
        simp [prune, List.filter_cons, ha] at ih ⊢
        omega

/-! ## Lemmas about `find_player`, `lookup_player` and `ensure_player` -/

theorem find_player_lt :
    ∀ (s : Store) (uid i : Nat), find_player s uid = some i → i < s.length
  | [], _, _, h => by simp [find_player] at h
  | p :: rest, uid, i, h => by
      by_cases hp : p.user_id = uid
      · simp [find_player, hp] at h
        simp only [List.length_cons]
        omega
      · simp only [find_player, hp, if_false, if_neg hp] at h
        rcases hi : find_player rest uid with _ | j
        · rw [hi] at h; simp at h
        · rw [hi] at h
          simp at h
          have := find_player_lt rest uid j hi
          simp [List.length_cons]
          omega

theorem find_player_getD :
    ∀ (s : Store) (uid i : Nat) (q : Player), find_player s uid = some i →
      lookup_player s uid = some (s.getD i q)
  | [], _, _, _, h => by simp [find_player] at h
  | p :: rest, uid, i, q, h => by
      by_cases hp : p.user_id = uid
      · simp [find_player, hp] at h
        subst h
        simp [lookup_player, hp]
      · simp only [find_player, if_neg hp] at h
        rcases hi : find_player rest uid with _ | j
        · rw [hi] at h; simp at h
        · rw [hi] at h
          simp at h
          subst h
          have := find_player_getD rest uid j q hi
          simpa [lookup_player, hp] using this

theorem find_player_none_lookup :
    ∀ (s : Store) (uid : Nat), find_player s uid = none → lookup_player s uid = none
  | [], _, _ => rfl
  | p :: rest, uid, h => by
      by_cases hp : p.user_id = uid
      · simp [find_player, hp] at h
      · simp only [find_player, if_neg hp] at h
        rcases hi : find_player rest uid with _ | j
        · simpa [lookup_player, hp] using find_player_none_lookup rest uid hi
        · rw [hi] at h; simp at h

theorem find_player_getD_uid :
    ∀ (s : Store) (uid i : Nat) (q : Player), find_player s uid = some i →
      (s.getD i q).user_id = uid
  | [], _, _, _, h => by simp [find_player] at h
  | p :: rest, uid, i, q, h => by
      by_cases hp : p.user_id = uid
      · simp [find_player, hp] at h
        subst h
        simpa using hp
      · simp only [find_player, if_neg hp] at h
        rcases hi : find_player rest uid with _ | j
        · rw [hi] at h; simp at h
        · rw [hi] at h
          simp at h
          subst h
          simpa using find_player_getD_uid rest uid j q hi

theorem find_player_append_one :
    ∀ (s : Store) (uid : Nat) (p : Player), find_player s uid = none →
      find_player (s ++ [p]) uid = if p.user_id = uid then some s.length else none
  | [], uid, p, _ => by simp [find_player]
  | a :: rest, uid, p, h => by
      by_cases ha : a.user_id = uid
      · simp [find_player, ha] at h
      · simp only [find_player, if_neg ha] at h
        rcases hi : find_player rest uid with _ | j
        · have hrec := find_player_append_one rest uid p hi
          simp only [List.cons_append, find_player, if_neg ha]
          by_cases hp : p.user_id = uid <;> simp [hrec, hp]
        · rw [hi] at h; simp at h

theorem lookup_set_self :
    ∀ (s : Store) (uid i : Nat) (p : Player), find_player s uid = some i →
      p.user_id = uid → lookup_player (s.set i p) uid = some p
  | [], _, _, _, h, _ => by simp [find_player] at h
  | a :: rest, uid, i, p, h, hp => by
      by_cases ha : a.user_id = uid
      · simp [find_player, ha] at h
        subst h
        simp [lookup_player, hp]
      · simp only [find_player, if_neg ha] at h
        rcases hi : find_player rest uid with _ | j
        · rw [hi] at h; simp at h
        · rw [hi] at h
          simp at h
          subst h
          have := lookup_set_self rest uid j p hi hp
          simpa [lookup_player, ha] using this

theorem lookup_filter_of_active (g : Player → Bool) :
    ∀ (s : Store) (uid : Nat) (p : Player), lookup_player s uid = some p →
      g p = true → lookup_player (s.filter g) uid = some p
  | [], _, _, h, _ => by simp [lookup_player] at h
  | a :: rest, uid, p, h, hg => by
      by_cases ha : a.user_id = uid
      · simp [lookup_player, ha] at h
        subst h
        simp [List.filter_cons, hg, lookup_player, ha]
      · simp only [lookup_player, if_neg ha] at h
        have := lookup_filter_of_active g rest uid p h hg
        by_cases hga : g a
        · simpa [List.filter_cons, hga, lookup_player, ha] using this
        · simpa [List.filter_cons, hga] using this

theorem lookup_eq_none_of_not_mem :
    ∀ (s : Store) (uid : Nat), uid ∉ s.map Player.user_id → lookup_player s uid = none
  | [], _, _ => rfl
  | a :: rest, uid, h => by
      simp only [List.map_cons, List.mem_cons] at h
      push_neg at h
      have ha : a.user_id ≠ uid := fun hc => h.1 hc.symm
      simpa [lookup_player, ha] using lookup_eq_none_of_not_mem rest uid h.2

theorem lookup_filter_nodup (g : Player → Bool) :
    ∀ (s : Store) (uid : Nat), (s.map Player.user_id).Nodup →
      lookup_player (s.filter g) uid =
        match lookup_player s uid with
        | some p => if g p then some p else none
        | none => none
  | [], _, _ => rfl
  | a :: rest, uid, h => by
      simp only [List.map_cons, List.nodup_cons] at h
      by_cases ha : a.user_id = uid
      · subst ha
        by_cases hga : g a
        · simp [List.filter_cons, hga, lookup_player, hga]
        · have hrest : lookup_player rest a.user_id = none :=
            lookup_eq_none_of_not_mem rest a.user_id h.1
          have hfil : lookup_player (rest.filter g) a.user_id = none := by
            apply lookup_eq_none_of_not_mem
            intro hc
            exact h.1 (by
              rcases List.mem_map.1 hc with ⟨q, hq, hq2⟩
              exact List.mem_map.2 ⟨q, (List.mem_filter.1 hq).1, hq2⟩)
          simp [List.filter_cons, hga, lookup_player, hfil]
      · have := lookup_filter_nodup g rest uid h.2
        by_cases hga : g a
        · simpa [List.filter_cons, hga, lookup_player, ha] using this
        · simpa [List.filter_cons, hga, lookup_player, ha] using this


theorem getD_append_length :
    ∀ (s : Store) (p q : Player), (s ++ [p]).getD s.length q = p
  | [], _, _ => rfl
  | _ :: rest, p, q => getD_append_length rest p q

theorem ensure_find (s : Store) (uid : Nat) :
    find_player (ensure_player s uid).1 uid = some (ensure_player s uid).2 := by
  rcases h : find_player s uid with _ | i
  · simp [ensure_player, h, find_player_append_one s uid _ h, fresh_player]
  · simp [ensure_player, h]

theorem ensure_lt (s : Store) (uid : Nat) :
    (ensure_player s uid).2 < (ensure_player s uid).1.length := by
  rcases h : find_player s uid with _ | i
  · simp [ensure_player, h]
  · simpa [ensure_player, h] using find_player_lt s uid i h

theorem ensure_getD (s : Store) (uid : Nat) :
    ((ensure_player s uid).1).getD (ensure_player s uid).2 (fresh_player uid)
      = (lookup_player s uid).getD (fresh_player uid) := by
  rcases h : find_player s uid with _ | i
  · rw [find_player_none_lookup s uid h]
    simp [ensure_player, h, getD_append_length]
  · rw [find_player_getD s uid i (fresh_player uid) h]
    simp [ensure_player, h]

theorem ensure_sum (f : Player → Nat) (s : Store) (uid : Nat)
    (hf : f (fresh_player uid) = 0) :
    (((ensure_player s uid).1).map f).sum = (s.map f).sum := by
  rcases h : find_player s uid with _ | i
  · simp [ensure_player, h, hf]
  · simp [ensure_player, h]

theorem ensure_lookup (s : Store) (uid : Nat) :
    lookup_player (ensure_player s uid).1 uid
      = some ((lookup_player s uid).getD (fresh_player uid)) := by
  have h1 := find_player_getD (ensure_player s uid).1 uid (ensure_player s uid).2
    (fresh_player uid) (ensure_find s uid)
  rw [h1, ensure_getD]

/-! ## Facts about emoji weights and group membership -/

theorem main_weight_pos (e : Emoji) (h : e ∈ ALL_MAIN_EMOJIS) :
    1 ≤ get_guest_count_from_emoji e GroupType.main := by
  fin_cases h <;> decide

theorem traveler_weight_pos (e : Emoji) (h : e ∈ ALL_TRAVELER_EMOJIS) :
    1 ≤ get_guest_count_from_emoji e GroupType.traveler := by
  fin_cases h <;> decide

theorem mem_main_not_special (e : Emoji) (h : e ∈ ALL_MAIN_EMOJIS) :
    e ≠ .clock ∧ e ≠ .surfer ∧ e ≠ .seal ∧ e ∉ ALL_TRAVELER_EMOJIS := by
  fin_cases h <;> decide

theorem mem_traveler_not_special (e : Emoji) (h : e ∈ ALL_TRAVELER_EMOJIS) :
    e ≠ .clock ∧ e ≠ .surfer ∧ e ≠ .seal ∧ e ∉ ALL_MAIN_EMOJIS := by
  fin_cases h <;> decide


/-! ## The capacity invariant -/

theorem prune_main_total (s : Store) :
    get_total_main_count (prune s) = get_total_main_count s :=
  sum_map_prune _ (fun p hp => by
    simp [entry_active] at hp
    exact hp.1.1.1) s

theorem prune_traveler_total (s : Store) :
    get_total_traveler_count (prune s) = get_total_traveler_count s :=
  sum_map_prune _ (fun p hp => by
    simp [entry_active] at hp
    exact hp.1.1.2) s

theorem prune_storyteller_total (s : Store) :
    get_total_storyteller_count (prune s) = get_total_storyteller_count s :=
  sum_map_prune _ (fun p hp => by
    simp [entry_active] at hp
    simp [hp.1.2]) s

theorem caps_prune (s : Store) (h : capsOK s) : capsOK (prune s) := by
  refine ⟨?_, ?_, ?_⟩
  · rw [prune_main_total]; exact h.1
  · rw [prune_traveler_total]; exact h.2.1
  · rw [prune_storyteller_total]; exact h.2.2

theorem set_main_main (p : Player) (w : Nat) : (set_main p w).main_count = w := rfl

theorem set_main_traveler (p : Player) (w : Nat) :
    (set_main p w).traveler_count = p.traveler_count := rfl

theorem set_main_story (p : Player) (w : Nat) :
    (set_main p w).storyteller = p.storyteller := rfl

theorem set_traveler_main (p : Player) (w : Nat) :
    (set_traveler p w).main_count = p.main_count := rfl

theorem set_traveler_traveler (p : Player) (w : Nat) :
    (set_traveler p w).traveler_count = w := rfl

theorem set_traveler_story (p : Player) (w : Nat) :
    (set_traveler p w).storyteller = p.storyteller := rfl

theorem set_story_main (p : Player) (b : Bool) : (set_story p b).main_count = p.main_count := rfl

theorem set_story_traveler (p : Player) (b : Bool) :
    (set_story p b).traveler_count = p.traveler_count := rfl

theorem set_story_story (p : Player) (b : Bool) : (set_story p b).storyteller = b := rfl

theorem set_hang_main (p : Player) (b : Bool) : (set_hang p b).main_count = p.main_count := rfl

theorem set_hang_traveler (p : Player) (b : Bool) :
    (set_hang p b).traveler_count = p.traveler_count := rfl

theorem set_hang_story (p : Player) (b : Bool) : (set_hang p b).storyteller = p.storyteller := rfl

theorem total_main_set (s : Store) (i : Nat) (q p : Player) (hi : i < s.length) :
    get_total_main_count (s.set i p) + (s.getD i q).main_count
      = get_total_main_count s + p.main_count :=
  sum_map_set Player.main_count s i p q hi

theorem total_traveler_set (s : Store) (i : Nat) (q p : Player) (hi : i < s.length) :
    get_total_traveler_count (s.set i p) + (s.getD i q).traveler_count
      = get_total_traveler_count s + p.traveler_count :=
  sum_map_set Player.traveler_count s i p q hi

theorem total_storyteller_set (s : Store) (i : Nat) (q p : Player) (hi : i < s.length) :
    get_total_storyteller_count (s.set i p)
        + (if (s.getD i q).storyteller then 1 else 0)
      = get_total_storyteller_count s + (if p.storyteller then 1 else 0) :=
  sum_map_set (fun p => if p.storyteller then 1 else 0) s i p q hi

theorem caps_set_main (s : Store) (i : Nat) (q : Player) (w : Nat)
    (hi : i < s.length) (h : capsOK s)
    (hcap : (get_total_main_count s : Int) - (s.getD i q).main_count + w
      <= MAX_MAIN_PLAYERS) :
    capsOK (s.set i (set_main (s.getD i q) w)) := by
  have h1 := total_main_set s i q (set_main (s.getD i q) w) hi
  have h2 := total_traveler_set s i q (set_main (s.getD i q) w) hi
  have h3 := total_storyteller_set s i q (set_main (s.getD i q) w) hi
  rw [set_main_main] at h1
  rw [set_main_traveler] at h2
  rw [set_main_story] at h3
  refine ⟨?_, ?_, ?_⟩
  · omega
  · have := h.2.1
    omega
  · have := h.2.2
    omega

theorem caps_set_traveler (s : Store) (i : Nat) (q : Player) (w : Nat)
    (hi : i < s.length) (h : capsOK s)
    (hcap : (get_total_traveler_count s : Int) - (s.getD i q).traveler_count + w
      <= MAX_TRAVELERS) :
    capsOK (s.set i (set_traveler (s.getD i q) w)) := by
  have h1 := total_main_set s i q (set_traveler (s.getD i q) w) hi
  have h2 := total_traveler_set s i q (set_traveler (s.getD i q) w) hi
  have h3 := total_storyteller_set s i q (set_traveler (s.getD i q) w) hi
  rw [set_traveler_main] at h1
  rw [set_traveler_traveler] at h2
  rw [set_traveler_story] at h3
  refine ⟨?_, ?_, ?_⟩
  · have := h.1
    omega
  · omega
  · have := h.2.2
    omega

theorem caps_set_story (s : Store) (i : Nat) (q : Player) (b : Bool)
    (hi : i < s.length) (h : capsOK s)
    (hcap : b = true → get_total_storyteller_count s < MAX_STORYTELLERS) :
    capsOK (s.set i (set_story (s.getD i q) b)) := by
  have h1 := total_main_set s i q (set_story (s.getD i q) b) hi
  have h2 := total_traveler_set s i q (set_story (s.getD i q) b) hi
  have h3 := total_storyteller_set s i q (set_story (s.getD i q) b) hi
  rw [set_story_main] at h1
  rw [set_story_traveler] at h2
  rw [set_story_story] at h3
  have hind : (if (s.getD i q).storyteller then 1 else 0) ≤ 1 := by
    rcases hb : (s.getD i q).storyteller <;> simp
  refine ⟨?_, ?_, ?_⟩
  · have := h.1
    omega
  · have := h.2.1
    omega
  · have hold := h.2.2
    rcases b with _ | _
    · simp only [Bool.false_eq_true, if_false] at h3
      omega
    · have hlt := hcap rfl
      simp only [eq_self_iff_true, if_true] at h3
      simp only [MAX_STORYTELLERS] at hold hlt ⊢
      omega

theorem caps_set_hang (s : Store) (i : Nat) (q : Player) (b : Bool)
    (hi : i < s.length) (h : capsOK s) :
    capsOK (s.set i (set_hang (s.getD i q) b)) := by
  have h1 := total_main_set s i q (set_hang (s.getD i q) b) hi
  have h2 := total_traveler_set s i q (set_hang (s.getD i q) b) hi
  have h3 := total_storyteller_set s i q (set_hang (s.getD i q) b) hi
  rw [set_hang_main] at h1
  rw [set_hang_traveler] at h2
  rw [set_hang_story] at h3
  refine ⟨?_, ?_, ?_⟩
  · have := h.1
    omega
  · have := h.2.1
    omega
  · have := h.2.2
    omega

theorem ensure_main_total (s0 : Store) (uid : Nat) :
    get_total_main_count (ensure_player s0 uid).1 = get_total_main_count s0 :=
  ensure_sum _ s0 uid rfl

theorem ensure_traveler_total (s0 : Store) (uid : Nat) :
    get_total_traveler_count (ensure_player s0 uid).1 = get_total_traveler_count s0 :=
  ensure_sum _ s0 uid rfl

theorem ensure_storyteller_total (s0 : Store) (uid : Nat) :
    get_total_storyteller_count (ensure_player s0 uid).1
      = get_total_storyteller_count s0 :=
  ensure_sum _ s0 uid rfl

theorem caps_ensure (s0 : Store) (uid : Nat) (h : capsOK s0) :
    capsOK (ensure_player s0 uid).1 := by
  refine ⟨?_, ?_, ?_⟩
  · rw [ensure_main_total]; exact h.1
  · rw [ensure_traveler_total]; exact h.2.1
  · rw [ensure_storyteller_total]; exact h.2.2

/-- Every selection-added signal preserves the capacity invariant. -/
theorem add_caps (s0 : Store) (uid : Nat) (e : Emoji) (h : capsOK s0) :
    capsOK (on_reaction_add s0 uid e).players := by
  have hlt := ensure_lt s0 uid
  have hens := caps_ensure s0 uid h
  unfold on_reaction_add
  simp only []
  split_ifs with h1 h2 h3 h4 h5 h6 h7 h8 h9
  · exact caps_prune _ hens
  · exact caps_prune _ (caps_set_story _ _ _ true hlt hens (fun _ => h3))
  · exact hens
  · exact caps_prune _ (caps_set_hang _ _ _ true hlt hens)
  · exact caps_prune _ (caps_set_main _ _ _ _ hlt hens h6)
  · exact hens
  · exact hens
  · exact caps_prune _ (caps_set_traveler _ _ _ _ hlt hens h9)
  · exact hens
  · exact caps_prune _ hens

theorem stored_main_getD (s : Store) (uid idx : Nat)
    (hf : find_player s uid = some idx) :
    stored_main s uid = (s.getD idx (fresh_player uid)).main_count := by
  rw [stored_main, find_player_getD s uid idx (fresh_player uid) hf]
  rfl

theorem stored_traveler_getD (s : Store) (uid idx : Nat)
    (hf : find_player s uid = some idx) :
    stored_traveler s uid = (s.getD idx (fresh_player uid)).traveler_count := by
  rw [stored_traveler, find_player_getD s uid idx (fresh_player uid) hf]
  rfl

/-- Every selection-removed signal whose scan satisfies `scanBoundedB`
preserves the capacity invariant. -/
theorem rem_caps (s : Store) (uid : Nat) (e : Emoji) (scan : RemovalScan)
    (h : capsOK s) (hb : scanBoundedB s (.removed uid e scan) = true) :
    capsOK (on_raw_reaction_remove s uid e scan).players := by
  unfold on_raw_reaction_remove
  rcases hf : find_player s uid with _ | idx
  · exact h
  · simp only []
    apply caps_prune
    have hlt := find_player_lt s uid idx hf
    simp only [scanBoundedB, Bool.and_eq_true] at hb
    split_ifs with h1 h2 h3 h4 h5
    · exact h
    · exact caps_set_story s idx (fresh_player uid) false hlt h (by simp)
    · exact caps_set_hang s idx (fresh_player uid) false hlt h
    · rcases hsm : scan.remainingMain with _ | t
      · exact caps_set_main s idx (fresh_player uid) 0 hlt h
          (by have := h.1; omega)
      · have hbm := hb.1
        rw [if_pos h4, hsm] at hbm
        simp only [decide_eq_true_eq] at hbm
        rw [stored_main_getD s uid idx hf] at hbm
        apply caps_set_main s idx (fresh_player uid) _ hlt h
        have := h.1
        omega
    · rcases hst : scan.remainingTraveler with _ | t
      · exact caps_set_traveler s idx (fresh_player uid) 0 hlt h
          (by have := h.2.1; omega)
      · have hbt := hb.2
        rw [if_pos h5, hst] at hbt
        simp only [decide_eq_true_eq] at hbt
        rw [stored_traveler_getD s uid idx hf] at hbt
        apply caps_set_traveler s idx (fresh_player uid) _ hlt h
        have := h.2.1
        omega
    · exact h

/-- C1 (counterexample): the capacity invariant does not hold for every
sequence of add/remove signals.  Starting from the empty store, five
weight-3 main signups are all accepted (each prefix total stays within the
capacity 15), and then a single selection-removed signal whose
remaining-reaction scan reports a weight-5 token drives the main total to
17 > 15: `on_raw_reaction_remove` installs the remaining reaction's weight
without any capacity check (lines 1014-1045 of the source). -/
theorem C1_counterexample :
    (∀ k, k ≤ 5 →
      get_total_main_count (runSignals [] (capacity_breach_signals.take k))
        ≤ MAX_MAIN_PLAYERS)
    ∧ (∀ k, k < 5 →
      (on_reaction_add (runSignals [] (capacity_breach_signals.take k))
        (k + 1) .swords).notice = none)
    ∧ get_total_main_count (runSignals [] capacity_breach_signals) = 17
    ∧ ¬ get_total_main_count (runSignals [] capacity_breach_signals)
        ≤ MAX_MAIN_PLAYERS := by
  decide

/-- C1 (amended): for every category with finite capacity, the total stored
weight stays within the capacity after every signal, for every sequence of
add/remove signals in which each removal's remaining-reaction scan reports
a weight no larger than the user's stored weight in the affected category
(`scanBoundedB`).  In particular the invariant is preserved by every
selection-added reconciliation, accepted or rejected. -/
theorem C1_capacity_invariant (s : Store) (sigs : List Signal)
    (h : capsOK s) (hg : goodSignalsB s sigs = true) :
    capsOK (runSignals s sigs) := by
  induction sigs generalizing s with
  | nil => exact h
  | cons sig rest ih =>
    simp only [goodSignalsB, Bool.and_eq_true] at hg
    have hstep : capsOK (stepSignal s sig) := by
      rcases sig with ⟨uid, e⟩ | ⟨uid, e, scan⟩
      · exact add_caps s uid e h
      · exact rem_caps s uid e scan h hg.1
    have : runSignals s (sig :: rest) = runSignals (stepSignal s sig) rest := rfl
    rw [this]
    exact ih (stepSignal s sig) hstep hg.2

/-- Witness for C1: the amended invariant applied to a concrete
well-behaved run. -/
theorem C1_capacity_invariant_witness :
    capsOK ([] : Store)
    ∧ goodSignalsB [] bounded_removal_signals = true
    ∧ capsOK (runSignals [] bounded_removal_signals) :=
  ⟨by decide, by decide,
    C1_capacity_invariant [] bounded_removal_signals (by decide) (by decide)⟩


theorem set_main_uid (p : Player) (w : Nat) : (set_main p w).user_id = p.user_id := rfl

theorem set_traveler_uid (p : Player) (w : Nat) :
    (set_traveler p w).user_id = p.user_id := rfl

theorem entry_active_set_main (p : Player) (w : Nat) (hw : 1 ≤ w) :
    entry_active (set_main p w) = true := by
  simp [entry_active, set_main]
  omega

theorem entry_active_set_traveler (p : Player) (w : Nat) (hw : 1 ≤ w) :
    entry_active (set_traveler p w) = true := by
  simp [entry_active, set_traveler]
  omega

/-- C2: on a selection-added signal for a recognised main-pool token of
weight `w`, the handler computes `candidate = total − prior + w` and accepts
exactly when `candidate ≤ 15` (stated additively as
`total + w ≤ 15 + prior`); on accept the stored weight for the user is
overwritten with `w` (it supersedes, never adds to, the prior selection),
so the new total is `total − prior + w`. -/
theorem C2_supersede_not_add (s0 : Store) (uid : Nat) (e : Emoji)
    (hm : e ∈ ALL_MAIN_EMOJIS) :
    ((get_total_main_count s0 + get_guest_count_from_emoji e GroupType.main
        ≤ MAX_MAIN_PLAYERS + stored_main s0 uid)
      ↔ (on_reaction_add s0 uid e).notice = none)
    ∧ (get_total_main_count s0 + get_guest_count_from_emoji e GroupType.main
        ≤ MAX_MAIN_PLAYERS + stored_main s0 uid →
      stored_main (on_reaction_add s0 uid e).players uid
          = get_guest_count_from_emoji e GroupType.main
      ∧ get_total_main_count (on_reaction_add s0 uid e).players
            + stored_main s0 uid
          = get_total_main_count s0 + get_guest_count_from_emoji e GroupType.main) := by
  obtain ⟨hne1, hne2, hne3, hnt⟩ := mem_main_not_special e hm
  have hfind := ensure_find s0 uid
  have hlt := ensure_lt s0 uid
  have hgetD := ensure_getD s0 uid
  have huid : ((ensure_player s0 uid).1.getD (ensure_player s0 uid).2
      (fresh_player uid)).user_id = uid :=
    find_player_getD_uid _ uid _ (fresh_player uid) hfind
  have hpm : ((ensure_player s0 uid).1.getD (ensure_player s0 uid).2
      (fresh_player uid)).main_count = stored_main s0 uid := by
    rw [hgetD]; rfl
  have htot := ensure_main_total s0 uid
  have hw := main_weight_pos e hm
  unfold on_reaction_add
  simp only []
  rw [if_neg hne1, if_neg hne2, if_pos hm]
  by_cases hc : get_total_main_count s0 + get_guest_count_from_emoji e GroupType.main
      ≤ MAX_MAIN_PLAYERS + stored_main s0 uid
  · rw [if_pos (by rw [htot, hpm]; omega)]
    have hset := lookup_set_self (ensure_player s0 uid).1 uid (ensure_player s0 uid).2
      (set_main ((ensure_player s0 uid).1.getD (ensure_player s0 uid).2 (fresh_player uid))
        (get_guest_count_from_emoji e GroupType.main)) hfind
      (by rw [set_main_uid]; exact huid)
    have hact := entry_active_set_main
      ((ensure_player s0 uid).1.getD (ensure_player s0 uid).2 (fresh_player uid))
      (get_guest_count_from_emoji e GroupType.main) hw
    have hlp := lookup_filter_of_active entry_active _ uid _ hset hact
    have hsum := total_main_set (ensure_player s0 uid).1 (ensure_player s0 uid).2
      (fresh_player uid)
      (set_main ((ensure_player s0 uid).1.getD (ensure_player s0 uid).2 (fresh_player uid))
        (get_guest_count_from_emoji e GroupType.main)) hlt
    rw [set_main_main, hpm, htot] at hsum
    refine ⟨⟨fun _ => rfl, fun _ => hc⟩, fun _ => ⟨?_, ?_⟩⟩
    · show stored_main (prune _) uid = _
      rw [stored_main, prune, hlp]
      rfl
    · show get_total_main_count (prune _) + _ = _
      rw [prune_main_total]
      omega
  · rw [if_neg (by rw [htot, hpm]; omega)]
    refine ⟨⟨fun hcc => absurd hcc hc, fun hn => ?_⟩, fun hcc => absurd hcc hc⟩
    exact absurd hn (by simp [abortAdd])

/-- Witness for C2: Scenario C — stored weight 3, total 15, a weight-2 token
is accepted and the total becomes 14. -/
theorem C2_supersede_not_add_witness :
    Emoji.dagger ∈ ALL_MAIN_EMOJIS
    ∧ (((get_total_main_count scenario_c_store
          + get_guest_count_from_emoji .dagger GroupType.main
          ≤ MAX_MAIN_PLAYERS + stored_main scenario_c_store 1)
        ↔ (on_reaction_add scenario_c_store 1 .dagger).notice = none)
      ∧ (get_total_main_count scenario_c_store
          + get_guest_count_from_emoji .dagger GroupType.main
          ≤ MAX_MAIN_PLAYERS + stored_main scenario_c_store 1 →
        stored_main (on_reaction_add scenario_c_store 1 .dagger).players 1
            = get_guest_count_from_emoji .dagger GroupType.main
        ∧ get_total_main_count (on_reaction_add scenario_c_store 1 .dagger).players
              + stored_main scenario_c_store 1
            = get_total_main_count scenario_c_store
              + get_guest_count_from_emoji .dagger GroupType.main)) :=
  ⟨by decide, C2_supersede_not_add scenario_c_store 1 .dagger (by decide)⟩

theorem ensure_players_eq (s0 : Store) (uid : Nat) :
    (ensure_player s0 uid).1
      = (if (find_player s0 uid).isSome then s0 else s0 ++ [fresh_player uid]) := by
  rcases h : find_player s0 uid with _ | i <;> simp [ensure_player, h]

theorem ensure_stored_main (s0 : Store) (uid : Nat) :
    stored_main (ensure_player s0 uid).1 uid = stored_main s0 uid := by
  rw [stored_main, ensure_lookup]
  rfl

/-- C3 (counterexample): a capacity-rejected add by a previously unknown
user does mutate the roster store — the handler's find-or-create prologue
appends an all-zero entry for the user, and the reject path returns before
the cleanup filter, so the entry stays.  (Scenario A numbers: capacity 15,
total 12, prior 0, weight-5 request → "3 remain", total stays 12.) -/
theorem C3_counterexample :
    (on_reaction_add [⟨2, 12, 0, false, false⟩] 1 .lightning).players
        ≠ [⟨2, 12, 0, false, false⟩]
    ∧ (on_reaction_add [⟨2, 12, 0, false, false⟩] 1 .lightning).notice
        = some (.mainFull 5 3)
    ∧ get_total_main_count
        (on_reaction_add [⟨2, 12, 0, false, false⟩] 1 .lightning).players = 12 := by
  decide

/-- C3 (amended): on a selection-added signal for a main-pool token of
weight `w` that exceeds the remaining capacity, the handler retracts the
just-added reaction, notifies the user with the requested weight and the
remaining capacity `15 − (total − prior)`, does not save, does not
republish the summary, and leaves every stored weight unchanged; the store
itself is unchanged for a known user, while for a previously unknown user
the appended all-zero entry remains (the early return skips the cleanup). -/
theorem C3_reject_retract_notify (s0 : Store) (uid : Nat) (e : Emoji)
    (hm : e ∈ ALL_MAIN_EMOJIS)
    (hover : MAX_MAIN_PLAYERS + stored_main s0 uid
      < get_total_main_count s0 + get_guest_count_from_emoji e GroupType.main) :
    (on_reaction_add s0 uid e).retractedSelf = true
    ∧ (on_reaction_add s0 uid e).notice
        = some (.mainFull (get_guest_count_from_emoji e GroupType.main)
            ((MAX_MAIN_PLAYERS : Int)
              - ((get_total_main_count s0 : Int) - (stored_main s0 uid : Int))))
    ∧ (on_reaction_add s0 uid e).saved = false
    ∧ (on_reaction_add s0 uid e).republished = false
    ∧ (on_reaction_add s0 uid e).players
        = (if (find_player s0 uid).isSome then s0 else s0 ++ [fresh_player uid])
    ∧ get_total_main_count (on_reaction_add s0 uid e).players
        = get_total_main_count s0
    ∧ stored_main (on_reaction_add s0 uid e).players uid = stored_main s0 uid := by
  obtain ⟨hne1, hne2, hne3, hnt⟩ := mem_main_not_special e hm
  have hgetD := ensure_getD s0 uid
  have hpm : ((ensure_player s0 uid).1.getD (ensure_player s0 uid).2
      (fresh_player uid)).main_count = stored_main s0 uid := by
    rw [hgetD]; rfl
  have htot := ensure_main_total s0 uid
  unfold on_reaction_add
  simp only []
  rw [if_neg hne1, if_neg hne2, if_pos hm]
  rw [if_neg (by rw [htot, hpm]; omega)]
  refine ⟨rfl, ?_, rfl, rfl, ?_, ?_, ?_⟩
  · show some _ = some _
    rw [htot, hpm]
  · exact ensure_players_eq s0 uid
  · exact htot
  · exact ensure_stored_main s0 uid

/-- Witness for C3: Scenario A with a known user — capacity 15, total 12,
prior 0, a weight-5 request is rejected with 3 spots remaining. -/
theorem C3_reject_retract_notify_witness :
    Emoji.lightning ∈ ALL_MAIN_EMOJIS
    ∧ MAX_MAIN_PLAYERS + stored_main [⟨2, 12, 0, false, false⟩, ⟨1, 0, 0, false, true⟩] 1
        < get_total_main_count [⟨2, 12, 0, false, false⟩, ⟨1, 0, 0, false, true⟩]
          + get_guest_count_from_emoji .lightning GroupType.main
    ∧ ((on_reaction_add [⟨2, 12, 0, false, false⟩, ⟨1, 0, 0, false, true⟩] 1
          .lightning).retractedSelf = true
      ∧ (on_reaction_add [⟨2, 12, 0, false, false⟩, ⟨1, 0, 0, false, true⟩] 1
          .lightning).notice
          = some (.mainFull
              (get_guest_count_from_emoji .lightning GroupType.main)
              ((MAX_MAIN_PLAYERS : Int)
                - ((get_total_main_count
                      [⟨2, 12, 0, false, false⟩, ⟨1, 0, 0, false, true⟩] : Int)
                  - (stored_main
                      [⟨2, 12, 0, false, false⟩, ⟨1, 0, 0, false, true⟩] 1 : Int))))
      ∧ (on_reaction_add [⟨2, 12, 0, false, false⟩, ⟨1, 0, 0, false, true⟩] 1
          .lightning).saved = false
      ∧ (on_reaction_add [⟨2, 12, 0, false, false⟩, ⟨1, 0, 0, false, true⟩] 1
          .lightning).republished = false
      ∧ (on_reaction_add [⟨2, 12, 0, false, false⟩, ⟨1, 0, 0, false, true⟩] 1
          .lightning).players
          = (if (find_player [⟨2, 12, 0, false, false⟩, ⟨1, 0, 0, false, true⟩] 1).isSome
            then [⟨2, 12, 0, false, false⟩, ⟨1, 0, 0, false, true⟩]
            else [⟨2, 12, 0, false, false⟩, ⟨1, 0, 0, false, true⟩] ++ [fresh_player 1])
      ∧ get_total_main_count (on_reaction_add
            [⟨2, 12, 0, false, false⟩, ⟨1, 0, 0, false, true⟩] 1 .lightning).players
          = get_total_main_count [⟨2, 12, 0, false, false⟩, ⟨1, 0, 0, false, true⟩]
      ∧ stored_main (on_reaction_add
            [⟨2, 12, 0, false, false⟩, ⟨1, 0, 0, false, true⟩] 1 .lightning).players 1
          = stored_main [⟨2, 12, 0, false, false⟩, ⟨1, 0, 0, false, true⟩] 1) :=
  ⟨by decide, by decide,
    C3_reject_retract_notify [⟨2, 12, 0, false, false⟩, ⟨1, 0, 0, false, true⟩] 1
      .lightning (by decide) (by decide)⟩


theorem mem_prune_active (s : Store) (p : Player) (h : p ∈ prune s) :
    entry_active p = true :=
  (List.mem_filter.1 h).2

theorem map_user_id_set :
    ∀ (s : Store) (i : Nat) (p q : Player), i < s.length →
      p.user_id = (s.getD i q).user_id →
      (s.set i p).map Player.user_id = s.map Player.user_id
  | [], i, _, _, h, _ => absurd h (by simp)
  | a :: rest, 0, p, q, _, hp => by
      simp only [List.getD_cons_zero] at hp
      simp [hp]
  | a :: rest, i + 1, p, q, h, hp => by
      simp only [List.getD_cons_succ] at hp
      have ih := map_user_id_set rest i p q (by simpa using h) hp
      show Player.user_id a :: (rest.set i p).map Player.user_id
          = Player.user_id a :: rest.map Player.user_id
      rw [ih]

/-- The stored weight after a set-then-prune, for a store whose user ids are
unique: the first (unique) entry is overwritten, and even if the entry is
pruned the read of an absent entry yields the written weight (which is then
necessarily zero). -/
theorem stored_main_prune_set (s : Store) (uid idx : Nat) (w : Nat)
    (hnd : (s.map Player.user_id).Nodup)
    (hfind : find_player s uid = some idx) :
    stored_main
      (prune (s.set idx (set_main (s.getD idx (fresh_player uid)) w))) uid = w := by
  have hlt := find_player_lt s uid idx hfind
  have huid := find_player_getD_uid s uid idx (fresh_player uid) hfind
  have hpuid : (set_main (s.getD idx (fresh_player uid)) w).user_id = uid := by
    rw [set_main_uid]; exact huid
  have hnd' : ((s.set idx (set_main (s.getD idx (fresh_player uid)) w)).map
      Player.user_id).Nodup := by
    rw [map_user_id_set s idx _ (fresh_player uid) hlt (by rw [set_main_uid, huid])]
    exact hnd
  have hset := lookup_set_self s uid idx
    (set_main (s.getD idx (fresh_player uid)) w) hfind hpuid
  have hlk := lookup_filter_nodup entry_active
    (s.set idx (set_main (s.getD idx (fresh_player uid)) w)) uid hnd'
  rw [hset] at hlk
  have hlk2 : lookup_player
      (prune (s.set idx (set_main (s.getD idx (fresh_player uid)) w))) uid
      = (if entry_active (set_main (s.getD idx (fresh_player uid)) w) = true
        then some (set_main (s.getD idx (fresh_player uid)) w) else none) := hlk
  rw [stored_main, hlk2]
  by_cases hact : entry_active (set_main (s.getD idx (fresh_player uid)) w)
  · rw [if_pos hact]
    rfl
  · rw [if_neg hact]
    have : w = 0 := by
      simp [entry_active, set_main] at hact
      exact hact.1.1.1
    simp [this, fresh_player]

theorem stored_traveler_prune_set (s : Store) (uid idx : Nat) (w : Nat)
    (hnd : (s.map Player.user_id).Nodup)
    (hfind : find_player s uid = some idx) :
    stored_traveler
      (prune (s.set idx (set_traveler (s.getD idx (fresh_player uid)) w))) uid = w := by
  have hlt := find_player_lt s uid idx hfind
  have huid := find_player_getD_uid s uid idx (fresh_player uid) hfind
  have hpuid : (set_traveler (s.getD idx (fresh_player uid)) w).user_id = uid := by
    rw [set_traveler_uid]; exact huid
  have hnd' : ((s.set idx (set_traveler (s.getD idx (fresh_player uid)) w)).map
      Player.user_id).Nodup := by
    rw [map_user_id_set s idx _ (fresh_player uid) hlt (by rw [set_traveler_uid, huid])]
    exact hnd
  have hset := lookup_set_self s uid idx
    (set_traveler (s.getD idx (fresh_player uid)) w) hfind hpuid
  have hlk := lookup_filter_nodup entry_active
    (s.set idx (set_traveler (s.getD idx (fresh_player uid)) w)) uid hnd'
  rw [hset] at hlk
  have hlk2 : lookup_player
      (prune (s.set idx (set_traveler (s.getD idx (fresh_player uid)) w))) uid
      = (if entry_active (set_traveler (s.getD idx (fresh_player uid)) w) = true
        then some (set_traveler (s.getD idx (fresh_player uid)) w) else none) := hlk
  rw [stored_traveler, hlk2]
  by_cases hact : entry_active (set_traveler (s.getD idx (fresh_player uid)) w)
  · rw [if_pos hact]
    rfl
  · rw [if_neg hact]
    have : w = 0 := by
      simp [entry_active, set_traveler] at hact
      exact hact.1.1.2
    simp [this, fresh_player]


/-- C4: on a selection-removed signal for a user with an entry (the spec's
store is keyed by a unique user id, hence the `Nodup` hypothesis), the
stored weight for the affected category becomes the weight of the remaining
token reported by the collaborator scan, or `0` when none remains; in all
cases empty entries are pruned, the snapshot is saved, and the summary is
republished — there is no capacity check anywhere on the removal path. -/
theorem C4_removal_reconciliation (s : Store) (uid : Nat) (e : Emoji)
    (scan : RemovalScan) (idx : Nat)
    (hnd : (s.map Player.user_id).Nodup)
    (hfind : find_player s uid = some idx) :
    (on_raw_reaction_remove s uid e scan).saved = true
    ∧ (on_raw_reaction_remove s uid e scan).republished = true
    ∧ (∀ p, p ∈ (on_raw_reaction_remove s uid e scan).players →
        entry_active p = true)
    ∧ (e ∈ ALL_MAIN_EMOJIS →
      stored_main (on_raw_reaction_remove s uid e scan).players uid
        = (match scan.remainingMain with
           | some t => get_guest_count_from_emoji t GroupType.main
           | none => 0))
    ∧ (e ∈ ALL_TRAVELER_EMOJIS →
      stored_traveler (on_raw_reaction_remove s uid e scan).players uid
        = (match scan.remainingTraveler with
           | some t => get_guest_count_from_emoji t GroupType.traveler
           | none => 0)) := by
  unfold on_raw_reaction_remove
  rw [hfind]
  simp only []
  refine ⟨trivial, trivial, fun p hp => mem_prune_active _ p hp, ?_, ?_⟩
  · intro hmm
    obtain ⟨hne1, hne2, _, _⟩ := mem_main_not_special e hmm
    rw [if_neg hne1, if_neg hne2, if_pos hmm]
    rcases hsm : scan.remainingMain with _ | t
    · exact stored_main_prune_set s uid idx 0 hnd hfind
    · exact stored_main_prune_set s uid idx _ hnd hfind
  · intro hmt
    obtain ⟨hne1, hne2, _, hnm⟩ := mem_traveler_not_special e hmt
    rw [if_neg hne1, if_neg hne2, if_neg hnm, if_pos hmt]
    rcases hst : scan.remainingTraveler with _ | t
    · exact stored_traveler_prune_set s uid idx 0 hnd hfind
    · exact stored_traveler_prune_set s uid idx _ hnd hfind


/-- Witness for C4: Scenario E — a user with stored weight 3 removes their
only main token (the scan finds nothing left): weight becomes 0, the entry
is pruned, and the handler saved and republished. -/
theorem C4_removal_reconciliation_witness :
    ((([⟨1, 3, 0, false, false⟩] : Store).map Player.user_id).Nodup
      ∧ find_player [⟨1, 3, 0, false, false⟩] 1 = some 0)
    ∧ ((on_raw_reaction_remove [⟨1, 3, 0, false, false⟩] 1 .swords
          ⟨none, none, false⟩).saved = true
      ∧ (on_raw_reaction_remove [⟨1, 3, 0, false, false⟩] 1 .swords
          ⟨none, none, false⟩).republished = true
      ∧ (∀ p, p ∈ (on_raw_reaction_remove [⟨1, 3, 0, false, false⟩] 1 .swords
            ⟨none, none, false⟩).players → entry_active p = true)
      ∧ (Emoji.swords ∈ ALL_MAIN_EMOJIS →
        stored_main (on_raw_reaction_remove [⟨1, 3, 0, false, false⟩] 1 .swords
            ⟨none, none, false⟩).players 1
          = (match (⟨none, none, false⟩ : RemovalScan).remainingMain with
             | some t => get_guest_count_from_emoji t GroupType.main
             | none => 0))
      ∧ (Emoji.swords ∈ ALL_TRAVELER_EMOJIS →
        stored_traveler (on_raw_reaction_remove [⟨1, 3, 0, false, false⟩] 1 .swords
            ⟨none, none, false⟩).players 1
          = (match (⟨none, none, false⟩ : RemovalScan).remainingTraveler with
             | some t => get_guest_count_from_emoji t GroupType.traveler
             | none => 0))) :=
  ⟨⟨by decide, by decide⟩,
    C4_removal_reconciliation [⟨1, 3, 0, false, false⟩] 1 .swords
      ⟨none, none, false⟩ 0 (by decide) (by decide)⟩

/-- C5 (code bug): after a completed signal sequence ending in a
capacity-rejected add by a previously unknown user, the store still holds
that user's all-zero entry — the reject path of `on_reaction_add` returns
before the "clean up empty players" filter, contradicting the spec's
invariant that the store never holds empty entries. -/
theorem C5_empty_entry_retained :
    fresh_player 1 ∈ runSignals [] rejected_unknown_user_signals
    ∧ entry_active (fresh_player 1) = false
    ∧ get_total_main_count
        (runSignals [] (rejected_unknown_user_signals.take 3)) = 12
    ∧ (on_reaction_add (runSignals [] (rejected_unknown_user_signals.take 3))
        1 .lightning).notice = some (.mainFull 5 3) := by
  decide


theorem ensure_stored_storyteller (s0 : Store) (uid : Nat) :
    stored_storyteller (ensure_player s0 uid).1 uid = stored_storyteller s0 uid := by
  rw [stored_storyteller, ensure_lookup]
  rfl

/-- C6: for the single-slot storyteller category, a re-selection by the
user who already holds the slot causes no retraction and no notification
and leaves every total unchanged, while a selection by another user while
the slot is occupied is rejected: the input is retracted, the user gets the
slot-taken notification, nothing is saved, and the user does not become a
storyteller. -/
theorem C6_storyteller_slot (s : Store) (x y ix : Nat)
    (hx : find_player s x = some ix)
    (hxst : (s.getD ix (fresh_player x)).storyteller = true)
    (hyst : stored_storyteller s y = false) :
    ((on_reaction_add s x .clock).retractedSelf = false
      ∧ (on_reaction_add s x .clock).notice = none
      ∧ get_total_storyteller_count (on_reaction_add s x .clock).players
          = get_total_storyteller_count s
      ∧ get_total_main_count (on_reaction_add s x .clock).players
          = get_total_main_count s
      ∧ get_total_traveler_count (on_reaction_add s x .clock).players
          = get_total_traveler_count s)
    ∧ ((on_reaction_add s y .clock).retractedSelf = true
      ∧ (on_reaction_add s y .clock).notice = some .storytellerTaken
      ∧ (on_reaction_add s y .clock).saved = false
      ∧ stored_storyteller (on_reaction_add s y .clock).players y = false
      ∧ get_total_storyteller_count (on_reaction_add s y .clock).players
          = get_total_storyteller_count s) := by
  have hens_x : ensure_player s x = (s, ix) := by simp [ensure_player, hx]
  constructor
  · unfold on_reaction_add
    rw [hens_x]
    simp only []
    rw [if_pos trivial, if_pos hxst]
    exact ⟨rfl, rfl, prune_storyteller_total s, prune_main_total s,
      prune_traveler_total s⟩
  · have hy_getD : ((ensure_player s y).1.getD (ensure_player s y).2
        (fresh_player y)).storyteller = false := by
      rw [ensure_getD]; exact hyst
    have hcount : ¬ get_total_storyteller_count (ensure_player s y).1
        < MAX_STORYTELLERS := by
      rw [ensure_storyteller_total]
      have hlt := find_player_lt s x ix hx
      have h1 := getD_le_sum (fun p => if p.storyteller then 1 else 0) s ix
        (fresh_player x) hlt
      have h1b : (if (s.getD ix (fresh_player x)).storyteller = true then 1 else 0)
          ≤ (s.map (fun p => if p.storyteller = true then 1 else 0)).sum := h1
      simp only [hxst, eq_self_iff_true, if_true] at h1b
      simp only [MAX_STORYTELLERS, get_total_storyteller_count]
      omega
    unfold on_reaction_add
    simp only []
    rw [if_pos trivial, if_neg (by rw [hy_getD]; simp), if_neg hcount]
    exact ⟨rfl, rfl, rfl, ensure_stored_storyteller s y ▸ hyst,
      ensure_storyteller_total s y⟩

/-- Witness for C6: Scenario D — user 10 holds the slot; user 10 re-selects
(no-op) while user 20 is rejected with the slot-taken notification. -/
theorem C6_storyteller_slot_witness :
    (find_player [⟨10, 0, 0, true, false⟩] 10 = some 0
      ∧ (([⟨10, 0, 0, true, false⟩] : Store).getD 0 (fresh_player 10)).storyteller = true
      ∧ stored_storyteller [⟨10, 0, 0, true, false⟩] 20 = false)
    ∧ (((on_reaction_add [⟨10, 0, 0, true, false⟩] 10 .clock).retractedSelf = false
      ∧ (on_reaction_add [⟨10, 0, 0, true, false⟩] 10 .clock).notice = none
      ∧ get_total_storyteller_count
            (on_reaction_add [⟨10, 0, 0, true, false⟩] 10 .clock).players
          = get_total_storyteller_count [⟨10, 0, 0, true, false⟩]
      ∧ get_total_main_count
            (on_reaction_add [⟨10, 0, 0, true, false⟩] 10 .clock).players
          = get_total_main_count [⟨10, 0, 0, true, false⟩]
      ∧ get_total_traveler_count
            (on_reaction_add [⟨10, 0, 0, true, false⟩] 10 .clock).players
          = get_total_traveler_count [⟨10, 0, 0, true, false⟩])
    ∧ ((on_reaction_add [⟨10, 0, 0, true, false⟩] 20 .clock).retractedSelf = true
      ∧ (on_reaction_add [⟨10, 0, 0, true, false⟩] 20 .clock).notice
          = some .storytellerTaken
      ∧ (on_reaction_add [⟨10, 0, 0, true, false⟩] 20 .clock).saved = false
      ∧ stored_storyteller
          (on_reaction_add [⟨10, 0, 0, true, false⟩] 20 .clock).players 20 = false
      ∧ get_total_storyteller_count
            (on_reaction_add [⟨10, 0, 0, true, false⟩] 20 .clock).players
          = get_total_storyteller_count [⟨10, 0, 0, true, false⟩])) :=
  ⟨⟨by decide, by decide, by decide⟩,
    C6_storyteller_slot [⟨10, 0, 0, true, false⟩] 10 20 0 (by decide) (by decide)
      (by decide)⟩


/-- C9: a selection-removed signal for a user who has no entry in the
roster store is a complete no-op at the store boundary: `find_player`
returns -1 and the handler returns before any mutation, so the store is
unchanged, nothing is saved, and the summary is not republished. -/
theorem C9_remove_unknown_user (s : Store) (uid : Nat) (e : Emoji)
    (scan : RemovalScan) (h : find_player s uid = none) :
    on_raw_reaction_remove s uid e scan = ⟨s, false, false⟩ := by
  unfold on_raw_reaction_remove
  rw [h]

/-- Witness for C9: removing a reaction of the unknown user 1 changes
nothing. -/
theorem C9_remove_unknown_user_witness :
    find_player [⟨2, 3, 0, false, false⟩] 1 = none
    ∧ on_raw_reaction_remove [⟨2, 3, 0, false, false⟩] 1 .shield ⟨none, none, false⟩
        = ⟨[⟨2, 3, 0, false, false⟩], false, false⟩ :=
  ⟨by decide,
    C9_remove_unknown_user [⟨2, 3, 0, false, false⟩] 1 .shield ⟨none, none, false⟩
      (by decide)⟩

/-- C7 (counterexample): on the game day itself, before the game time, the
computed occurrence is next week rather than today.  With the rule
"weekday 3 at 19:30" and the current time 10:00 on a weekday-3 day (day 3),
the code returns day 10, although day 3 at 19:30 matches the rule, is
strictly in the future, and is strictly sooner — so the computed occurrence
is not the soonest matching timestamp. -/
theorem C7_counterexample :
    get_next_game_time 3 19 30 ⟨3, 600⟩ = ⟨10, 1170⟩
    ∧ weekday ⟨3, 1170⟩ = 3
    ∧ (⟨3, 1170⟩ : LocalTime).minute = 19 * 60 + 30
    ∧ timeBefore ⟨3, 600⟩ ⟨3, 1170⟩
    ∧ timeBefore ⟨3, 1170⟩ ⟨10, 1170⟩ := by
  decide

/-- C7 (amended): the computed next occurrence is at the requested
time-of-day on the soonest day whose weekday matches the rule among days
STRICTLY later than today: the roll to the following week happens whenever
`days_ahead ≤ 0`, i.e. already on the game day itself, even when today's
occurrence time is still in the future. -/
theorem C7_next_occurrence (day_of_week hour minute : Nat) (now : LocalTime)
    (hdow : day_of_week < 7) :
    weekday (get_next_game_time day_of_week hour minute now) = day_of_week
    ∧ (get_next_game_time day_of_week hour minute now).minute
        = hour * 60 + minute
    ∧ now.day < (get_next_game_time day_of_week hour minute now).day
    ∧ (get_next_game_time day_of_week hour minute now).day ≤ now.day + 7
    ∧ (∀ m : Nat, now.day < m → m % 7 = day_of_week →
        (get_next_game_time day_of_week hour minute now).day ≤ m) := by
  unfold get_next_game_time weekday
  simp only []
  split_ifs with hc
  · refine ⟨?_, trivial, ?_, ?_, ?_⟩
    · omega
    · omega
    · omega
    · intro m h1 h2
      omega
  · refine ⟨?_, trivial, ?_, ?_, ?_⟩
    · omega
    · omega
    · omega
    · intro m h1 h2
      omega

/-- Witness for C7: the Thursday rule evaluated on a Thursday morning —
the next occurrence is next Thursday (day 10), which is indeed the soonest
strictly-later day with that weekday. -/
theorem C7_next_occurrence_witness :
    3 < 7
    ∧ (weekday (get_next_game_time 3 19 30 ⟨3, 600⟩) = 3
      ∧ (get_next_game_time 3 19 30 ⟨3, 600⟩).minute = 19 * 60 + 30
      ∧ (3 : Nat) < (get_next_game_time 3 19 30 ⟨3, 600⟩).day
      ∧ (get_next_game_time 3 19 30 ⟨3, 600⟩).day ≤ 3 + 7
      ∧ (∀ m : Nat, 3 < m → m % 7 = 3 →
          (get_next_game_time 3 19 30 ⟨3, 600⟩).day ≤ m)) :=
  ⟨by decide, C7_next_occurrence 3 19 30 ⟨3, 600⟩ (by decide)⟩

/-- C8: restoring from a missing or malformed snapshot file keeps the
in-memory value — in particular, at startup (in-memory value =
`default_game_data`) the store is the empty default snapshot — and the
restore function is total, so no exception propagates to its caller. -/
theorem C8_restore_fallback (g : GameData) (f : SnapshotFile)
    (h : f = .missing ∨ f = .malformed) :
    load_game_data g f = g
    ∧ load_game_data default_game_data f = default_game_data := by
  rcases h with h | h <;> subst h <;> exact ⟨rfl, rfl⟩

/-- Witness for C8: Scenario F — a malformed snapshot file at startup
leaves the store at the empty default. -/
theorem C8_restore_fallback_witness :
    (SnapshotFile.malformed = SnapshotFile.missing
      ∨ SnapshotFile.malformed = SnapshotFile.malformed)
    ∧ (load_game_data default_game_data .malformed = default_game_data
      ∧ load_game_data default_game_data .malformed = default_game_data) :=
  ⟨Or.inr rfl, C8_restore_fallback default_game_data .malformed (Or.inr rfl)⟩

/-- C10: for every bare-hour input accepted at setup, hours 6 through 11
are interpreted as PM (`hour + 12`, minute 0), every other in-range hour is
used as-is in 24-hour form with minute 0, and out-of-range hours are
rejected. -/
theorem C10_bare_hour (h : Nat) :
    parse_time_bare_hour h
      = if h > 23 then none
        else if 6 ≤ h ∧ h ≤ 11 then some (h + 12, 0)
        else some (h, 0) := by
  by_cases h1 : h > 23
  · simp [parse_time_bare_hour, parse_hour_only, h1]
  · by_cases h2 : 6 ≤ h ∧ h ≤ 11
    · have h3 : h + 12 ≤ 23 := by omega
      simp [parse_time_bare_hour, parse_hour_only, h1, h2, h3]
    · have h3 : h ≤ 23 := by omega
      simp [parse_time_bare_hour, parse_hour_only, h1, h2, h3]

end BotcBot
